import Mathlib

/-
Shallow embedding of the Ambientika Home Assistant climate adapter
(custom_components/ambientika/climate.py), the `AmbientikaFan` entity.

The adapter holds an optional cached `DeviceStatus` (`self._state`).  Each
command operation is modelled as a pure function from the cached state (and
the remote device's `change_mode` outcome, given as an oracle function from
requests to booleans) to the new cached state, together with the list of
`change_mode` requests actually sent and a flag recording whether a caller
error (Python `KeyError` from an enum name lookup) was raised.
-/

namespace Ambientika

/-- Modelled from the spec: the vendor operating-mode enum
(`ambientika_py.OperatingMode` is an external SDK, not in the repository).
The spec requires a fixed enumerated set including an explicit `Off` value
and one or more active modes; the spec's scenarios use `Heat`. -/
inductive OperatingMode where
  | Off
  | Heat
  | Smart
  | Night
deriving DecidableEq, Repr

/-- Python `Enum.name` for `OperatingMode`. -/
def OperatingMode.name : OperatingMode → String
  | .Off => "Off"
  | .Heat => "Heat"
  | .Smart => "Smart"
  | .Night => "Night"

/-- Python `OperatingMode[name]` lookup; `none` models a raised `KeyError`. -/
def OperatingMode.fromName (s : String) : Option OperatingMode :=
  if s = "Off" then some .Off
  else if s = "Heat" then some .Heat
  else if s = "Smart" then some .Smart
  else if s = "Night" then some .Night
  else none

/-- Modelled from the spec: the vendor fan-speed enum
(`ambientika_py.FanSpeed` is an external SDK, not in the repository); a
fixed enumerated set, e.g. Low/Medium/High. -/
inductive FanSpeed where
  | Low
  | Medium
  | High
deriving DecidableEq, Repr

/-- Python `Enum.name` for `FanSpeed`. -/
def FanSpeed.name : FanSpeed → String
  | .Low => "Low"
  | .Medium => "Medium"
  | .High => "High"

/-- Python `FanSpeed[name]` lookup; `none` models a raised `KeyError`. -/
def FanSpeed.fromName (s : String) : Option FanSpeed :=
  if s = "Low" then some .Low
  else if s = "Medium" then some .Medium
  else if s = "High" then some .High
  else none

/-- Modelled from the spec: the vendor humidity-level category
(`ambientika_py.HumidityLevel`, external SDK); an input echo for
mode-change requests, not independently controlled by the adapter. -/
inductive HumidityLevel where
  | Dry
  | Normal
  | Moist
deriving DecidableEq, Repr

/-- Modelled from the spec: the host platform's HVAC-mode enum
(`homeassistant HVACMode`, external collaborator).  The adapter only acts
on `OFF` and `FAN_ONLY`; the other members exist in the host enum. -/
inductive HVACMode where
  | OFF
  | HEAT
  | COOL
  | HEAT_COOL
  | AUTO
  | DRY
  | FAN_ONLY
deriving DecidableEq, Repr

/-- The cached device-status snapshot (`DeviceStatus` TypedDict).
Temperature is an opaque scalar for the adapter (it is only stored and
projected, never computed with), embedded as `Int`. -/
structure DeviceStatus where
  temperature : Int
  humidity : Nat
  humidity_level : HumidityLevel
  fan_speed : FanSpeed
  operating_mode : OperatingMode
  last_operating_mode : OperatingMode
deriving DecidableEq, Repr

/-- The full desired-state object passed to `device.change_mode`. -/
structure ModeChangeRequest where
  operating_mode : OperatingMode
  fan_speed : FanSpeed
  humidity_level : HumidityLevel
deriving DecidableEq, Repr

/-- Outcome of one adapter command: whether a caller error (`KeyError`)
was raised, the cached state afterwards, and the `change_mode` requests
sent to the remote device, in order. -/
structure OpResult where
  raised : Bool
  state : Option DeviceStatus
  sent : List ModeChangeRequest
deriving DecidableEq, Repr

/-- `AmbientikaFan.available`: the entity is available iff a cached status
is present (`self._state is not None`). -/
def available (state : Option DeviceStatus) : Bool :=
  state.isSome

/-- `AmbientikaFan.current_temperature`: projection of the cache, `none`
("unknown") when the cache is absent. -/
def current_temperature (state : Option DeviceStatus) : Option Int :=
  state.map (fun s => s.temperature)

/-- `AmbientikaFan.current_humidity`: projection of the cache. -/
def current_humidity (state : Option DeviceStatus) : Option Nat :=
  state.map (fun s => s.humidity)

/-- `AmbientikaFan.fan_mode`: the cached fan speed's enum name. -/
def fan_mode (state : Option DeviceStatus) : Option String :=
  state.map (fun s => s.fan_speed.name)

/-- `AmbientikaFan.preset_mode`: the cached operating mode's enum name. -/
def preset_mode (state : Option DeviceStatus) : Option String :=
  state.map (fun s => s.operating_mode.name)

/-- `AmbientikaFan.hvac_mode`: `OFF` when the cached operating mode is
`Off`, otherwise `FAN_ONLY`; `none` when the cache is absent. -/
def hvac_mode (state : Option DeviceStatus) : Option HVACMode :=
  state.map (fun s =>
    if s.operating_mode = OperatingMode.Off then HVACMode.OFF else HVACMode.FAN_ONLY)

/-- `AmbientikaFan.is_on`: true iff the cached operating mode is not `Off`. -/
def is_on (state : Option DeviceStatus) : Option Bool :=
  state.map (fun s => decide (s.operating_mode ≠ OperatingMode.Off))

/-- `AmbientikaFan.async_set_fan_mode`.  Skips everything when the cache is
absent; otherwise looks up `FanSpeed[fan_mode]` (a `KeyError`, modelled by
`raised := true`, aborts before any remote call), sends one `change_mode`
request reusing the cached operating mode and humidity level, and on a
truthy result patches only the cached `fan_speed`. -/
def async_set_fan_mode (change_mode : ModeChangeRequest → Bool)
    (state : Option DeviceStatus) (fan_mode : String) : OpResult :=
  match state with
  | none => ⟨false, none, []⟩
  | some s =>
    match FanSpeed.fromName fan_mode with
    | none => ⟨true, some s, []⟩
    | some fs =>
      let req : ModeChangeRequest := ⟨s.operating_mode, fs, s.humidity_level⟩
      if change_mode req then
        ⟨false, some { s with fan_speed := fs }, [req]⟩
      else
        ⟨false, some s, [req]⟩

/-- `AmbientikaFan.async_set_hvac_mode`.  Returns immediately when the
cache is absent.  `OFF` while not off: sends `change_mode` with
`operating_mode = Off` keeping fan speed and humidity level and on success
stores the previous operating mode in `last_operating_mode` and sets
`operating_mode := Off`.  `FAN_ONLY` while off: sends `change_mode` with
the stashed `last_operating_mode` and on success restores it into
`operating_mode` and resets `last_operating_mode := Off`.  Any other
combination falls through without a remote call. -/
def async_set_hvac_mode (change_mode : ModeChangeRequest → Bool)
    (state : Option DeviceStatus) (hvac_mode : HVACMode) : OpResult :=
  match state with
  | none => ⟨false, none, []⟩
  | some s =>
    if hvac_mode = HVACMode.OFF ∧ s.operating_mode ≠ OperatingMode.Off then
      let req : ModeChangeRequest := ⟨OperatingMode.Off, s.fan_speed, s.humidity_level⟩
      if change_mode req then
        ⟨false,
          some { s with
                  last_operating_mode := s.operating_mode
                  operating_mode := OperatingMode.Off },
          [req]⟩
      else
        ⟨false, some s, [req]⟩
    else if hvac_mode = HVACMode.FAN_ONLY ∧ s.operating_mode = OperatingMode.Off then
      let req : ModeChangeRequest := ⟨s.last_operating_mode, s.fan_speed, s.humidity_level⟩
      if change_mode req then
        ⟨false,
          some { s with
                  operating_mode := s.last_operating_mode
                  last_operating_mode := OperatingMode.Off },
          [req]⟩
      else
        ⟨false, some s, [req]⟩
    else
      ⟨false, some s, []⟩

/-- `AmbientikaFan.async_set_preset_mode`.  Returns immediately when the
cache is absent; `OperatingMode[preset_mode]` may raise `KeyError` before
the remote call; otherwise sends one `change_mode` request with the new
mode, keeping fan speed and humidity level.  On a truthy result the source
executes, in order, `last_operating_mode = operating_mode` and then
`operating_mode = last_operating_mode` — the second assignment reads the
value just written by the first, so both fields end up holding the *old*
operating mode; the sequential `let`s below reproduce that order. -/
def async_set_preset_mode (change_mode : ModeChangeRequest → Bool)
    (state : Option DeviceStatus) (preset_mode : String) : OpResult :=
  match state with
  | none => ⟨false, none, []⟩
  | some s =>
    match OperatingMode.fromName preset_mode with
    | none => ⟨true, some s, []⟩
    | some m =>
      let req : ModeChangeRequest := ⟨m, s.fan_speed, s.humidity_level⟩
      if change_mode req then
        let s1 := { s with last_operating_mode := s.operating_mode }
        let s2 := { s1 with operating_mode := s1.last_operating_mode }
        ⟨false, some s2, [req]⟩
      else
        ⟨false, some s, [req]⟩

/-- `AmbientikaFan.async_update`: on a successful `status()` the cache is
replaced wholesale by the returned snapshot; on failure it is cleared to
absent.  The prior cache is discarded either way. -/
def async_update (status : Except String DeviceStatus)
    (_state : Option DeviceStatus) : Option DeviceStatus :=
  match status with
  | .ok data => some data
  | .error _ => none

/-- Concrete sample cache: the spec scenario {mode: Heat, fan: Low,
last_mode: Off}. -/
def sampleHeat : DeviceStatus :=
  ⟨21, 45, HumidityLevel.Normal, FanSpeed.Low, OperatingMode.Heat, OperatingMode.Off⟩

/-- Concrete sample cache with the device off. -/
def sampleOff : DeviceStatus :=
  ⟨21, 45, HumidityLevel.Normal, FanSpeed.Low, OperatingMode.Off, OperatingMode.Heat⟩

/-- Concrete sample snapshot whose `last_operating_mode` is an active mode. -/
def sampleResume : DeviceStatus :=
  ⟨19, 50, HumidityLevel.Dry, FanSpeed.Medium, OperatingMode.Heat, OperatingMode.Heat⟩

/-- C5: with a cached status whose operating mode is not `Off`,
`set_power(off)` sends exactly one `change_mode` request carrying
`operating_mode = Off` and the cached fan speed and humidity level; when
that request succeeds the cache afterwards has `last_operating_mode` equal
to the previous operating mode, `operating_mode = Off`, and every other
field unchanged. -/
theorem set_power_off_spec (cm : ModeChangeRequest → Bool) (s : DeviceStatus)
    (h : s.operating_mode ≠ OperatingMode.Off) :
    (async_set_hvac_mode cm (some s) HVACMode.OFF).sent =
      [⟨OperatingMode.Off, s.fan_speed, s.humidity_level⟩] ∧
    (cm ⟨OperatingMode.Off, s.fan_speed, s.humidity_level⟩ = true →
      (async_set_hvac_mode cm (some s) HVACMode.OFF).state =
        some { s with
                last_operating_mode := s.operating_mode
                operating_mode := OperatingMode.Off }) := by
  constructor
  · simp only [async_set_hvac_mode]
    rw [if_pos (And.intro trivial h)]
    split <;> rfl
  · intro hc
    simp only [async_set_hvac_mode]
    rw [if_pos (And.intro trivial h), hc]
    rfl

/-- C5 witness: the spec scenario {mode: Heat, fan: Low, last_mode: Off}
with an always-succeeding remote. -/
theorem set_power_off_spec_witness :
    (async_set_hvac_mode (fun _ => true) (some sampleHeat) HVACMode.OFF).sent =
      [⟨OperatingMode.Off, sampleHeat.fan_speed, sampleHeat.humidity_level⟩] ∧
    ((fun (_ : ModeChangeRequest) => true)
        ⟨OperatingMode.Off, sampleHeat.fan_speed, sampleHeat.humidity_level⟩ = true →
      (async_set_hvac_mode (fun _ => true) (some sampleHeat) HVACMode.OFF).state =
        some { sampleHeat with
                last_operating_mode := sampleHeat.operating_mode
                operating_mode := OperatingMode.Off }) :=
  set_power_off_spec (fun _ => true) sampleHeat (by decide)

/-- C6: power commands are idempotent no-ops.  `set_power(off)` when the
cached operating mode is already `Off`, and `set_power(on)` (`FAN_ONLY`)
when it is not `Off`, send zero `change_mode` requests, raise nothing, and
leave the cache unchanged. -/
theorem set_power_idempotent (cm : ModeChangeRequest → Bool) (s : DeviceStatus) :
    (s.operating_mode = OperatingMode.Off →
      async_set_hvac_mode cm (some s) HVACMode.OFF = ⟨false, some s, []⟩) ∧
    (s.operating_mode ≠ OperatingMode.Off →
      async_set_hvac_mode cm (some s) HVACMode.FAN_ONLY = ⟨false, some s, []⟩) := by
  constructor
  · intro h
    simp [async_set_hvac_mode, h]
  · intro h
    simp [async_set_hvac_mode, h]

/-- C6 witness: both idempotent branches at concrete caches. -/
theorem set_power_idempotent_witness :
    async_set_hvac_mode (fun _ => true) (some sampleOff) HVACMode.OFF =
      ⟨false, some sampleOff, []⟩ ∧
    async_set_hvac_mode (fun _ => true) (some sampleHeat) HVACMode.FAN_ONLY =
      ⟨false, some sampleHeat, []⟩ :=
  ⟨(set_power_idempotent (fun _ => true) sampleOff).1 (by decide),
   (set_power_idempotent (fun _ => true) sampleHeat).2 (by decide)⟩

/-- C2: round trip.  From a cached status that is not `Off`, running
`set_power(off)` and then `set_power(on)`, with both remote `change_mode`
calls succeeding, leaves the cached `operating_mode` equal to its pre-off
value and resets `last_operating_mode` to `Off` (no resume pending). -/
theorem set_power_round_trip (cm : ModeChangeRequest → Bool) (s : DeviceStatus)
    (h : s.operating_mode ≠ OperatingMode.Off)
    (h1 : cm ⟨OperatingMode.Off, s.fan_speed, s.humidity_level⟩ = true)
    (h2 : cm ⟨s.operating_mode, s.fan_speed, s.humidity_level⟩ = true) :
    ((async_set_hvac_mode cm
        ((async_set_hvac_mode cm (some s) HVACMode.OFF).state)
        HVACMode.FAN_ONLY).state).map (fun t => t.operating_mode) =
      some s.operating_mode ∧
    ((async_set_hvac_mode cm
        ((async_set_hvac_mode cm (some s) HVACMode.OFF).state)
        HVACMode.FAN_ONLY).state).map (fun t => t.last_operating_mode) =
      some OperatingMode.Off := by
  have hoff : (async_set_hvac_mode cm (some s) HVACMode.OFF).state =
      some { s with
              last_operating_mode := s.operating_mode
              operating_mode := OperatingMode.Off } := by
    simp only [async_set_hvac_mode]
    rw [if_pos (And.intro trivial h), h1]
    rfl
  rw [hoff]
  simp [async_set_hvac_mode, h2]

/-- C2 witness: round trip on the spec scenario cache with an
always-succeeding remote. -/
theorem set_power_round_trip_witness :
    ((async_set_hvac_mode (fun _ => true)
        ((async_set_hvac_mode (fun _ => true) (some sampleHeat) HVACMode.OFF).state)
        HVACMode.FAN_ONLY).state).map (fun t => t.operating_mode) =
      some sampleHeat.operating_mode ∧
    ((async_set_hvac_mode (fun _ => true)
        ((async_set_hvac_mode (fun _ => true) (some sampleHeat) HVACMode.OFF).state)
        HVACMode.FAN_ONLY).state).map (fun t => t.last_operating_mode) =
      some OperatingMode.Off :=
  set_power_round_trip (fun _ => true) sampleHeat (by decide) rfl rfl

/-- C1 (failing evaluation): from the cache {mode: Heat, fan: Low,
humidity_level: Normal}, `set_preset("Night")` with a succeeding remote
sends the request carrying `operating_mode = Night` with the cached fan
speed and humidity level — but the subsequent cache update leaves the
cached `operating_mode` (and `last_operating_mode`) equal to `Heat`, the
*old* mode, not `Night`: the second assignment in the source reads the
`last_operating_mode` value the first assignment just overwrote. -/
theorem set_preset_cache_keeps_old_mode :
    (async_set_preset_mode (fun _ => true) (some sampleHeat) "Night").sent =
      [⟨OperatingMode.Night, FanSpeed.Low, HumidityLevel.Normal⟩] ∧
    ((async_set_preset_mode (fun _ => true) (some sampleHeat) "Night").state).map
        (fun t => t.operating_mode) = some OperatingMode.Heat ∧
    ((async_set_preset_mode (fun _ => true) (some sampleHeat) "Night").state).map
        (fun t => t.last_operating_mode) = some OperatingMode.Heat := by
  refine ⟨?_, ?_, ?_⟩ <;> rfl

/-- C3 counterexample: a state with `last_operating_mode = Off` is
reachable.  Starting from an empty cache, a successful refresh installs a
snapshot whose `last_operating_mode` is the active mode `Heat`; a
successful `set_power(off)` followed by a successful `set_power(on)` then
leaves `last_operating_mode = Off`, violating the claimed invariant. -/
theorem last_mode_off_reachable :
    ((async_set_hvac_mode (fun _ => true)
        ((async_set_hvac_mode (fun _ => true)
            (async_update (Except.ok sampleResume) none) HVACMode.OFF).state)
        HVACMode.FAN_ONLY).state).map (fun t => t.last_operating_mode) =
      some OperatingMode.Off := by
  rfl

/-- C3 amended: only the power-off success path maintains the
resume-target property.  When the cached operating mode is not `Off` and
the `change_mode` request for powering off succeeds, the resulting cached
`last_operating_mode` is not `Off`; the invariant does not hold across all
operations, since the power-on path deliberately resets
`last_operating_mode` to `Off` and a refresh installs arbitrary
snapshots. -/
theorem set_power_off_keeps_resume_target (cm : ModeChangeRequest → Bool)
    (s : DeviceStatus) (h : s.operating_mode ≠ OperatingMode.Off)
    (h1 : cm ⟨OperatingMode.Off, s.fan_speed, s.humidity_level⟩ = true) :
    ((async_set_hvac_mode cm (some s) HVACMode.OFF).state).map
        (fun t => t.last_operating_mode) ≠ some OperatingMode.Off := by
  have hoff : (async_set_hvac_mode cm (some s) HVACMode.OFF).state =
      some { s with
              last_operating_mode := s.operating_mode
              operating_mode := OperatingMode.Off } := by
    simp only [async_set_hvac_mode]
    rw [if_pos (And.intro trivial h), h1]
    rfl
  rw [hoff]
  simpa using h

/-- C3 amended witness: powering off the spec scenario cache leaves the
resume target at `Heat`, not `Off`. -/
theorem set_power_off_keeps_resume_target_witness :
    ((async_set_hvac_mode (fun _ => true) (some sampleHeat) HVACMode.OFF).state).map
        (fun t => t.last_operating_mode) ≠ some OperatingMode.Off :=
  set_power_off_keeps_resume_target (fun _ => true) sampleHeat (by decide) rfl

/-- C4: when the remote `change_mode` returns failure/false, every
mutating operation — `set_fan_speed`, `set_power`, `set_preset` — leaves
the cached status exactly as it was before the call, for every cached
state and every argument. -/
theorem change_mode_failure_leaves_cache (cm : ModeChangeRequest → Bool)
    (hcm : ∀ r, cm r = false) (st : Option DeviceStatus)
    (fm : String) (hm : HVACMode) (pm : String) :
    (async_set_fan_mode cm st fm).state = st ∧
    (async_set_hvac_mode cm st hm).state = st ∧
    (async_set_preset_mode cm st pm).state = st := by
  refine ⟨?_, ?_, ?_⟩ <;>
    cases st with
    | none => rfl
    | some s =>
      simp only [async_set_fan_mode, async_set_hvac_mode, async_set_preset_mode, hcm]
      repeat' split <;> simp [hcm]

/-- C4 witness: a failing remote leaves a concrete cache untouched for all
three commands. -/
theorem change_mode_failure_leaves_cache_witness :
    (async_set_fan_mode (fun _ => false) (some sampleHeat) "High").state =
      some sampleHeat ∧
    (async_set_hvac_mode (fun _ => false) (some sampleHeat) HVACMode.OFF).state =
      some sampleHeat ∧
    (async_set_preset_mode (fun _ => false) (some sampleHeat) "Night").state =
      some sampleHeat :=
  change_mode_failure_leaves_cache (fun _ => false) (fun _ => rfl)
    (some sampleHeat) "High" HVACMode.OFF "Night"

/-- C7: refresh contract.  A failed `refresh()` clears the cache
regardless of its prior value, so `available` is false and every read
accessor (temperature, humidity, fan mode, preset mode, power-on flag)
returns unknown; a successful `refresh()` replaces the cache wholesale
with the returned snapshot, and the read accessors exactly reflect its
fields. -/
theorem refresh_contract (st : Option DeviceStatus) (e : String) (d : DeviceStatus) :
    (async_update (Except.error e) st = none ∧
      available (async_update (Except.error e) st) = false ∧
      current_temperature (async_update (Except.error e) st) = none ∧
      current_humidity (async_update (Except.error e) st) = none ∧
      fan_mode (async_update (Except.error e) st) = none ∧
      preset_mode (async_update (Except.error e) st) = none ∧
      is_on (async_update (Except.error e) st) = none) ∧
    (async_update (Except.ok d) st = some d ∧
      available (async_update (Except.ok d) st) = true ∧
      current_temperature (async_update (Except.ok d) st) = some d.temperature ∧
      current_humidity (async_update (Except.ok d) st) = some d.humidity ∧
      fan_mode (async_update (Except.ok d) st) = some d.fan_speed.name ∧
      preset_mode (async_update (Except.ok d) st) = some d.operating_mode.name ∧
      is_on (async_update (Except.ok d) st) =
        some (decide (d.operating_mode ≠ OperatingMode.Off))) := by
  simp [async_update, available, current_temperature, current_humidity,
    fan_mode, preset_mode, is_on]

/-- C8: with a cached status present, `set_fan_speed` with a name outside
the enumerated `FanSpeed` set raises a caller error (`KeyError` from the
enum lookup) before any remote `change_mode` call is made, and the cached
status is unchanged. -/
theorem invalid_fan_speed_rejected (cm : ModeChangeRequest → Bool)
    (s : DeviceStatus) (name : String) (h : FanSpeed.fromName name = none) :
    async_set_fan_mode cm (some s) name = ⟨true, some s, []⟩ := by
  simp [async_set_fan_mode, h]

/-- C8 witness: the unknown speed name "Turbo" is rejected without a
remote call. -/
theorem invalid_fan_speed_rejected_witness :
    async_set_fan_mode (fun _ => true) (some sampleHeat) "Turbo" =
      ⟨true, some sampleHeat, []⟩ :=
  invalid_fan_speed_rejected (fun _ => true) sampleHeat "Turbo" (by decide)

/-- C9: the set-HVAC-mode operation with any mode other than `OFF` and
`FAN_ONLY` performs no remote `change_mode` call, raises no error, and
leaves the cached status unchanged, for every cached state. -/
theorem other_hvac_modes_noop (cm : ModeChangeRequest → Bool)
    (st : Option DeviceStatus) (m : HVACMode)
    (h1 : m ≠ HVACMode.OFF) (h2 : m ≠ HVACMode.FAN_ONLY) :
    async_set_hvac_mode cm st m = ⟨false, st, []⟩ := by
  cases st with
  | none => rfl
  | some s => simp [async_set_hvac_mode, h1, h2]

/-- C9 witness: the host mode `HEAT` is ignored. -/
theorem other_hvac_modes_noop_witness :
    async_set_hvac_mode (fun _ => true) (some sampleHeat) HVACMode.HEAT =
      ⟨false, some sampleHeat, []⟩ :=
  other_hvac_modes_noop (fun _ => true) (some sampleHeat) HVACMode.HEAT
    (by decide) (by decide)

/-- C10: with no cached status, `set_fan_speed` returns without error for
every input string: the absent-cache no-op check precedes the enum-name
lookup, so even a name outside the fan-speed set raises nothing, sends
nothing, and changes nothing. -/
theorem absent_cache_fan_mode_noop (cm : ModeChangeRequest → Bool) (name : String) :
    async_set_fan_mode cm none name = ⟨false, none, []⟩ :=
  rfl

end Ambientika
